import Mathlib

/-!
Verification of the sage-whisper voice-note transcription application.

The service layer of the application (`app/services/auth.py`,
`app/services/voice_note.py`, `app/services/transcription.py`,
`app/services/transcript.py`, `app/services/jwt.py`) and the transcription
router (`app/routers/voice_notes.py`) are shallowly embedded below.
Database sessions are modelled as explicit lists of rows, timestamps as
integers (seconds), audio timestamps as rationals, and fallible operations
as `Except` / `Option` results.  External effects (bcrypt hashing, the
whisper model, the jose JWT library) are passed in as parameters or
modelled by their documented contracts, so every definition is executable.
-/

set_option autoImplicit false

namespace SageWhisper

/-- Python `str.lower()` (ASCII case folding), realised character by
character so that it evaluates inside the kernel. -/
def pyLower (s : String) : String :=
  String.mk (s.data.map Char.toLower)

/-- Python `str.strip()`: remove leading and trailing whitespace. -/
def pyStrip (s : String) : String :=
  String.mk (((s.data.dropWhile Char.isWhitespace).reverse.dropWhile
    Char.isWhitespace).reverse)

/-- Is the first list a prefix of the second?  (Python `str.startswith`.) -/
def leadsChars : List Char → List Char → Bool
  | [], _ => true
  | _ :: _, [] => false
  | a :: as, b :: bs => a == b && leadsChars as bs

/-- Python `s.startswith(p)`. -/
def pyStartsWith (s p : String) : Bool :=
  leadsChars p.data s.data

/-- Does `f` hold of some suffix of the list (the list itself included)? -/
def anySuffix (f : List Char → Bool) : List Char → Bool
  | [] => f []
  | c :: s => f (c :: s) || anySuffix f s

/-- SQL `LIKE` pattern matching over explicit character lists: `%` matches any
(possibly empty) sequence of characters, `_` matches exactly one character,
any other pattern character matches itself.  First argument is the pattern,
second the subject. -/
def likeMatch : List Char → List Char → Bool
  | [], s => s.isEmpty
  | c :: ps, s =>
    if c = '%' then
      anySuffix (likeMatch ps) s
    else
      match s with
      | [] => false
      | d :: s' => if c = '_' then likeMatch ps s' else c == d && likeMatch ps s'

/-- SQLAlchemy's `column.ilike(pattern)`: case-insensitive SQL LIKE, realised
by lowercasing both sides (as PostgreSQL/SQLite do for ASCII). -/
def ilike (subject pattern : String) : Bool :=
  likeMatch (pyLower pattern).data (pyLower subject).data

/-- Plain case-insensitive string equality, as the spec words it
("email matches an existing user's email case-insensitively").  Kept separate
from `ilike` so the two notions can be compared. -/
def caseInsEq (a b : String) : Bool :=
  pyLower a == pyLower b

/-- Row of the `user` table (`app/models/user.py`). -/
structure User where
  id : Nat
  email : String
  password_hash : String
  display_name : String
  is_active : Bool
  created_at : Int
  last_login_at : Option Int
  password_reset_token : Option String
  password_reset_expires_at : Option Int
deriving Repr, DecidableEq

/-- `AuthResult` dataclass (`app/services/auth.py`). -/
structure AuthResult where
  success : Bool
  error : Option String := none
  user_id : Option Nat := none
  email : Option String := none
  display_name : Option String := none
deriving Repr, DecidableEq

/-- `db.query(User).filter(User.email.ilike(email)).first()`: the first user
whose email ILIKE-matches the given pattern. -/
def findUserIlike (db : List User) (email : String) : Option User :=
  db.find? (fun u => ilike u.email email)

/-- `db.query(User).filter(User.password_reset_token == token).first()`. -/
def findUserByResetToken (db : List User) (token : String) : Option User :=
  db.find? (fun u => u.password_reset_token == some token)

/-- Mutate-then-commit on an ORM row, modelled as an id-keyed update of the
user list. -/
def updateUser (db : List User) (uid : Nat) (f : User → User) : List User :=
  db.map (fun u => if u.id == uid then f u else u)

/-- `AuthService.register` (`app/services/auth.py`).  `hashpw` stands for
`bcrypt.hashpw(password, bcrypt.gensalt())`; `nextId` is the autoincrement
id the insert would receive and `now` the current UTC time. -/
def register (hashpw : String → String) (db : List User) (nextId : Nat) (now : Int)
    (email password display_name : String) : List User × AuthResult :=
  match findUserIlike db email with
  | some _ => (db, { success := false, error := some ("Email already registered") })
  | none =>
    let user : User :=
      { id := nextId
        email := pyStrip (pyLower email)
        password_hash := hashpw password
        display_name := pyStrip display_name
        is_active := true
        created_at := now
        last_login_at := none
        password_reset_token := none
        password_reset_expires_at := none }
    (db ++ [user],
     { success := true, user_id := some user.id, email := some user.email,
       display_name := some user.display_name })

/-- `AuthService.authenticate` (`app/services/auth.py`).  `checkpw password hash`
stands for `bcrypt.checkpw(password, hash)`. -/
def authenticate (checkpw : String → String → Bool) (db : List User) (now : Int)
    (email password : String) : List User × AuthResult :=
  match findUserIlike db email with
  | none => (db, { success := false, error := some ("Invalid email or password") })
  | some user =>
    if !user.is_active then
      (db, { success := false, error := some ("Account is deactivated") })
    else if !checkpw password user.password_hash then
      (db, { success := false, error := some ("Invalid email or password") })
    else
      (updateUser db user.id (fun u => { u with last_login_at := some now }),
       { success := true, user_id := some user.id, email := some user.email,
         display_name := some user.display_name })

/-- `AuthService.request_password_reset` (`app/services/auth.py`).  `token`
stands for the fresh `secrets.token_urlsafe(32)` value. -/
def request_password_reset (db : List User) (now : Int) (email token : String) :
    List User × Option String :=
  match findUserIlike db email with
  | none => (db, none)
  | some user =>
    (updateUser db user.id (fun u =>
      { u with password_reset_token := some token,
               password_reset_expires_at := some (now + 30 * 60) }),
     some token)

/-- The Python guard `if not user.password_reset_expires_at or
user.password_reset_expires_at < datetime.utcnow()`: a missing expiry (falsy
`None`) counts as expired. -/
def resetExpired (user : User) (now : Int) : Bool :=
  match user.password_reset_expires_at with
  | none => true
  | some exp => decide (exp < now)

/-- `AuthService.reset_password` (`app/services/auth.py`). -/
def reset_password (hashpw : String → String) (db : List User) (now : Int)
    (token new_password : String) : List User × AuthResult :=
  match findUserByResetToken db token with
  | none => (db, { success := false, error := some ("Invalid or expired reset link") })
  | some user =>
    if resetExpired user now then
      (updateUser db user.id (fun u =>
        { u with password_reset_token := none, password_reset_expires_at := none }),
       { success := false,
         error := some ("Reset link has expired. Please request a new one.") })
    else
      (updateUser db user.id (fun u =>
        { u with password_hash := hashpw new_password,
                 password_reset_token := none,
                 password_reset_expires_at := none,
                 last_login_at := some now }),
       { success := true, user_id := some user.id, email := some user.email,
         display_name := some user.display_name })

/-! ### General lemmas about LIKE matching -/

theorem anySuffix_of_self {f : List Char → Bool} {s : List Char} (h : f s = true) :
    anySuffix f s = true := by
  cases s with
  | nil => simpa [anySuffix] using h
  | cons c s => simp [anySuffix, h]

theorem likeMatch_self (l : List Char) : likeMatch l l = true := by
  induction l with
  | nil => rfl
  | cons c cs ih =>
    by_cases hp : c = '%'
    · subst hp
      have h1 : anySuffix (likeMatch cs) cs = true := anySuffix_of_self ih
      simp [likeMatch, anySuffix, h1]
    · by_cases hu : c = '_'
      · subst hu
        simp [likeMatch, ih]
      · simp [likeMatch, hp, hu, ih]

/-- A plain case-insensitive duplicate always ILIKE-matches: equality of the
lowercased strings implies the subject matches the attempted pattern. -/
theorem ilike_of_caseInsEq {a b : String} (h : caseInsEq a b = true) :
    ilike b a = true := by
  have hs : pyLower a = pyLower b := by
    simpa [caseInsEq] using h
  simp only [ilike, hs]
  exact likeMatch_self _

/-! ### C1: `authenticate` failure error strings -/

/-- Example inactive user used as the C1 counterexample. -/
def cxInactiveUser : User :=
  { id := 1, email := "a@b.c", password_hash := "h", display_name := "A",
    is_active := false, created_at := 0, last_login_at := none,
    password_reset_token := none, password_reset_expires_at := none }

/-- C1 counterexample: authenticating against an inactive account fails with
the error text "Account is deactivated", which differs from the generic
"Invalid email or password" the claim asserts for all three failure cases
(even with a password check that would succeed). -/
theorem authenticate_inactive_distinct_error :
    (authenticate (fun _ _ => true) [cxInactiveUser] 0 ("a@b.c") ("pw")).2 =
      { success := false, error := some ("Account is deactivated") } ∧
    ("Account is deactivated" : String) ≠ "Invalid email or password" := by
  constructor
  · decide
  · decide

/-- C1 amended: `authenticate` fails with the generic "Invalid email or
password" when the user is absent or when the bcrypt check fails, but an
inactive account fails with the distinct error "Account is deactivated". -/
theorem authenticate_failure_errors (checkpw : String → String → Bool) (db : List User)
    (now : Int) (email password : String) :
    (findUserIlike db email = none →
      (authenticate checkpw db now email password).2 =
        { success := false, error := some ("Invalid email or password") }) ∧
    (∀ u, findUserIlike db email = some u → u.is_active = false →
      (authenticate checkpw db now email password).2 =
        { success := false, error := some ("Account is deactivated") }) ∧
    (∀ u, findUserIlike db email = some u → u.is_active = true →
      checkpw password u.password_hash = false →
      (authenticate checkpw db now email password).2 =
        { success := false, error := some ("Invalid email or password") }) := by
  refine ⟨fun h => ?_, fun u hu hia => ?_, fun u hu hia hpw => ?_⟩
  · simp [authenticate, h]
  · simp [authenticate, hu, hia]
  · simp [authenticate, hu, hia, hpw]

/-- Witness for `authenticate_failure_errors`: concrete instances of the
absent-user and wrong-password cases. -/
theorem authenticate_failure_errors_witness :
    (authenticate (fun _ _ => false) [] 0 ("a@b.c") ("pw")).2 =
      { success := false, error := some ("Invalid email or password") } ∧
    (authenticate (fun _ _ => false) [{ cxInactiveUser with is_active := true }] 0
        ("a@b.c") ("pw")).2 =
      { success := false, error := some ("Invalid email or password") } :=
  ⟨(authenticate_failure_errors (fun _ _ => false) [] 0 ("a@b.c") ("pw")).1 (by decide),
   (authenticate_failure_errors (fun _ _ => false) [{ cxInactiveUser with is_active := true }]
      0 ("a@b.c") ("pw")).2.2 { cxInactiveUser with is_active := true } (by decide) (by decide)
      (by decide)⟩

/-! ### C7: `register` duplicate handling -/

/-- Pre-existing account used in the C7 counterexample and witness. -/
def cxRegUser : User :=
  { id := 1, email := "ab@x.com", password_hash := "h1", display_name := "B",
    is_active := true, created_at := 0, last_login_at := none,
    password_reset_token := none, password_reset_expires_at := none }

/-- C7 counterexample: the duplicate check uses SQL `ILIKE` with the attempted
email as the pattern, so `_` and `%` act as wildcards.  Registering
`a_@x.com` against a database holding only `ab@x.com` matches no existing
email case-insensitively, yet it is rejected and no user is created —
refuting the claim's "otherwise it persists an active user" half. -/
theorem register_wildcard_counterexample :
    (∀ u ∈ [cxRegUser], caseInsEq ("a_@x.com") u.email = false) ∧
    (register (fun s => s) [cxRegUser] 2 0 ("a_@x.com") ("pw") ("N")).2 =
      { success := false, error := some ("Email already registered") } ∧
    (register (fun s => s) [cxRegUser] 2 0 ("a_@x.com") ("pw") ("N")).1 = [cxRegUser] := by
  refine ⟨by decide, by decide, by decide⟩

/-- C7 amended: `register` rejects (leaving the database, hence every stored
password hash, unchanged) exactly when some existing email ILIKE-matches the
attempted email — which includes every case-insensitive duplicate — and
otherwise appends an active user with the email lowercased and trimmed. -/
theorem register_spec (hashpw : String → String) (db : List User) (nextId : Nat)
    (now : Int) (email password display_name : String) :
    ((∃ u ∈ db, caseInsEq email u.email = true) →
      register hashpw db nextId now email password display_name =
        (db, { success := false, error := some ("Email already registered") })) ∧
    (findUserIlike db email ≠ none →
      register hashpw db nextId now email password display_name =
        (db, { success := false, error := some ("Email already registered") })) ∧
    (findUserIlike db email = none →
      register hashpw db nextId now email password display_name =
        (db ++ [{ id := nextId, email := pyStrip (pyLower email),
                  password_hash := hashpw password,
                  display_name := pyStrip display_name, is_active := true,
                  created_at := now, last_login_at := none,
                  password_reset_token := none,
                  password_reset_expires_at := none }],
         { success := true, user_id := some nextId,
           email := some (pyStrip (pyLower email)),
           display_name := some (pyStrip display_name) })) := by
  have hdup : findUserIlike db email ≠ none →
      register hashpw db nextId now email password display_name =
        (db, { success := false, error := some ("Email already registered") }) := by
    intro h
    cases hf : findUserIlike db email with
    | none => exact absurd hf h
    | some u => simp [register, hf]
  refine ⟨fun ⟨u, hu, hci⟩ => hdup ?_, hdup, fun h => ?_⟩
  · have hlike : ilike u.email email = true := ilike_of_caseInsEq hci
    have : (List.find? (fun v => ilike v.email email) db).isSome = true :=
      List.find?_isSome.mpr ⟨u, hu, hlike⟩
    simp only [findUserIlike]
    intro hnone
    rw [hnone] at this
    exact Bool.noConfusion this
  · simp [register, h]

/-- Witness for `register_spec`: a case-insensitive duplicate is rejected, and
an unrelated email is persisted lowercased and trimmed. -/
theorem register_spec_witness :
    (register (fun s => s) [cxRegUser] 2 0 ("AB@X.COM") ("pw") ("N")).2 =
      { success := false, error := some ("Email already registered") } ∧
    register (fun s => s) [cxRegUser] 2 0 (" New@Y.com ") ("pw") (" N ") =
      ([cxRegUser,
        { id := 2, email := "new@y.com", password_hash := "pw",
          display_name := "N", is_active := true, created_at := 0,
          last_login_at := none, password_reset_token := none,
          password_reset_expires_at := none }],
       { success := true, user_id := some 2, email := some ("new@y.com"),
         display_name := some ("N") }) := by
  constructor
  · have h := (register_spec (fun s => s) [cxRegUser] 2 0 ("AB@X.COM") ("pw") ("N")).1
      ⟨cxRegUser, by decide, by decide⟩
    rw [h]
  · have h := (register_spec (fun s => s) [cxRegUser] 2 0 (" New@Y.com ") ("pw") (" N ")).2.2
      (by decide)
    rw [h]
    decide

/-! ### C3: password-reset tokens are single-use -/

/-- After an update that clears the reset token of the (unique) holder, no
user in the database holds that token any more. -/
theorem updateUser_clears_token (db : List User) (u : User) (token : String)
    (hmem : u ∈ db) (htok : u.password_reset_token = some token)
    (hU : ∀ x ∈ db, ∀ y ∈ db, x.password_reset_token = some token →
        y.password_reset_token = some token → x.id = y.id)
    (f : User → User) (hf : ∀ w, (f w).password_reset_token = none) :
    ∀ v ∈ updateUser db u.id f, v.password_reset_token ≠ some token := by
  intro v hv hvt
  rw [updateUser, List.mem_map] at hv
  obtain ⟨w, hw, hveq⟩ := hv
  by_cases hid : w.id = u.id
  · rw [← hveq, if_pos (by simpa using hid)] at hvt
    rw [hf w] at hvt
    exact Option.noConfusion hvt
  · rw [← hveq, if_neg (by simpa using hid)] at hvt
    exact hid (hU w hw u hmem hvt htok)

/-- C3: a password-reset token is single-use.  Provided the token is held by
at most one user (it is generated by `secrets.token_urlsafe(32)`), a call to
`reset_password` that either succeeds or fails because the expiry has passed
clears the holder's reset fields, so no user holds the token afterwards and a
second call with the same token fails with the invalid/expired error. -/
theorem reset_password_single_use (hashpw1 hashpw2 : String → String)
    (db : List User) (now1 now2 : Int) (token np1 np2 : String)
    (hU : ∀ x ∈ db, ∀ y ∈ db, x.password_reset_token = some token →
        y.password_reset_token = some token → x.id = y.id)
    (h : (reset_password hashpw1 db now1 token np1).2.success = true ∨
         (reset_password hashpw1 db now1 token np1).2.error =
           some ("Reset link has expired. Please request a new one.")) :
    (∀ v ∈ (reset_password hashpw1 db now1 token np1).1,
        v.password_reset_token ≠ some token) ∧
    (reset_password hashpw2 (reset_password hashpw1 db now1 token np1).1 now2
        token np2).2 =
      { success := false, error := some ("Invalid or expired reset link") } := by
  cases hf : findUserByResetToken db token with
  | none =>
    exfalso
    rcases h with h | h
    · simp [reset_password, hf] at h
    · simp [reset_password, hf] at h
  | some u =>
    have hmem : u ∈ db := List.mem_of_find?_eq_some hf
    have htok : u.password_reset_token = some token := by
      have hp := List.find?_some hf
      simpa using hp
    have hcleared : ∀ v ∈ (reset_password hashpw1 db now1 token np1).1,
        v.password_reset_token ≠ some token := by
      by_cases hexp : resetExpired u now1 = true
      · have h1 : (reset_password hashpw1 db now1 token np1).1 =
            updateUser db u.id (fun w =>
              { w with password_reset_token := none,
                       password_reset_expires_at := none }) := by
          simp [reset_password, hf, hexp]
        rw [h1]
        exact updateUser_clears_token db u token hmem htok hU _ (fun w => rfl)
      · have h1 : (reset_password hashpw1 db now1 token np1).1 =
            updateUser db u.id (fun w =>
              { w with password_hash := hashpw1 np1,
                       password_reset_token := none,
                       password_reset_expires_at := none,
                       last_login_at := some now1 }) := by
          simp [reset_password, hf, hexp]
        rw [h1]
        exact updateUser_clears_token db u token hmem htok hU _ (fun w => rfl)
    refine ⟨hcleared, ?_⟩
    set db1 := (reset_password hashpw1 db now1 token np1).1 with hdb1
    have hnone : findUserByResetToken db1 token = none := by
      rw [findUserByResetToken, List.find?_eq_none]
      intro x hx hxt
      exact hcleared x hx (by simpa using hxt)
    simp [reset_password, hnone]

/-- User holding a live reset token, for the C3 witness. -/
def w3User : User :=
  { id := 1, email := "t@x.com", password_hash := "h", display_name := "T",
    is_active := true, created_at := 0, last_login_at := none,
    password_reset_token := some ("tok"), password_reset_expires_at := some 100 }

/-- Witness for `reset_password_single_use`: a successful reset at time 0
with token `tok` (expiry 100), followed by a failing second attempt. -/
theorem reset_password_single_use_witness :
    (∀ v ∈ (reset_password (fun s => s) [w3User] 0 ("tok") ("np1")).1,
        v.password_reset_token ≠ some ("tok")) ∧
    (reset_password (fun s => s) (reset_password (fun s => s) [w3User] 0 ("tok")
        ("np1")).1 5 ("tok") ("np2")).2 =
      { success := false, error := some ("Invalid or expired reset link") } :=
  reset_password_single_use (fun s => s) (fun s => s) [w3User] 0 5 ("tok")
    ("np1") ("np2") (by decide) (Or.inl (by decide))

/-! ### Voice-note service (`app/services/voice_note.py`) -/

/-- `ALLOWED_EXTENSIONS` set. -/
def ALLOWED_EXTENSIONS : List String :=
  [".mp3", ".m4a", ".mp4", ".wav", ".webm", ".ogg", ".flac"]

/-- `ALLOWED_MIME_TYPES` set (includes `video/mp4` for iPhone voice memos). -/
def ALLOWED_MIME_TYPES : List String :=
  ["audio/mpeg", "audio/mp4", "audio/x-m4a", "audio/wav", "audio/x-wav",
   "audio/webm", "audio/ogg", "audio/flac", "audio/x-flac", "video/mp4"]

/-- `pathlib.Path(...).name`: the final path component (trailing slashes
dropped). -/
def pathNameChars (cs : List Char) : List Char :=
  (((cs.reverse.dropWhile (fun c => c = '/')).takeWhile (fun c => c ≠ '/'))).reverse

/-- `pathlib.Path(filename).suffix`: the extension from the last dot of the
final component, empty when the name has no dot, starts with its only dot, or
ends with a dot. -/
def pathSuffix (filename : String) : String :=
  let name := pathNameChars filename.data
  match ((name.enum.filter (fun p => p.2 == '.')).map Prod.fst).getLast? with
  | none => ""
  | some i => if 0 < i ∧ i + 1 < name.length then String.mk (name.drop i) else ""

/-- `VoiceNoteService.validate_upload_metadata`: extension allow-list first,
then a relaxed MIME check that is skipped entirely when `content_type` is
falsy (`None` or the empty string). -/
def validate_upload_metadata (filename : String) (content_type : Option String) :
    Option String :=
  let ext := pyLower (pathSuffix filename)
  if !ALLOWED_EXTENSIONS.contains ext then
    some ("Unsupported file type '" ++ ext ++
      "'. Allowed: .flac, .m4a, .mp3, .mp4, .ogg, .wav, .webm")
  else
    match content_type with
    | none => none
    | some ct =>
      if ct != "" && !ALLOWED_MIME_TYPES.contains ct &&
          !pyStartsWith ct ("audio/") && ct != "video/mp4" then
        some ("Invalid content type '" ++ ct ++ "'. Must be an audio file.")
      else
        none

/-- Decidable equality for `Except`, needed to evaluate results on concrete
inputs. -/
def exceptDecEq {ε α : Type} [DecidableEq ε] [DecidableEq α] :
    DecidableEq (Except ε α) := fun x y =>
  match x, y with
  | .ok a, .ok b =>
    if h : a = b then isTrue (by rw [h])
    else isFalse (by intro hc; cases hc; exact h rfl)
  | .error a, .error b =>
    if h : a = b then isTrue (by rw [h])
    else isFalse (by intro hc; cases hc; exact h rfl)
  | .ok _, .error _ => isFalse (by intro hc; cases hc)
  | .error _, .ok _ => isFalse (by intro hc; cases hc)

instance {ε α : Type} [DecidableEq ε] [DecidableEq α] :
    DecidableEq (Except ε α) := exceptDecEq

/-- Result of `VoiceNoteService.store_file`: the bytes left on disk (`none`
when the partial file was removed) and either the final byte count or the
`ValueError` message. -/
structure StoreResult where
  file : Option (List Nat)
  outcome : Except String Nat
deriving Repr, DecidableEq

/-- The chunked write loop of `store_file`: 64KB reads are modelled as the
given chunk list (an empty chunk means end of stream), the cumulative byte
counter is checked against the cap after every read, and a cap violation
removes the partial file and reports the `ValueError` message. -/
def storeLoop (maxMB : Nat) (chunks : List (List Nat)) (written : List Nat)
    (file_size : Nat) : StoreResult :=
  match chunks with
  | [] => { file := some written, outcome := .ok file_size }
  | chunk :: rest =>
    if chunk.isEmpty then
      { file := some written, outcome := .ok file_size }
    else
      let file_size' := file_size + chunk.length
      if file_size' > maxMB * 1024 * 1024 then
        { file := none,
          outcome := .error ("File too large (" ++
            toString (file_size' / (1024 * 1024)) ++ "MB). Maximum: " ++
            toString maxMB ++ "MB") }
      else
        storeLoop maxMB rest (written ++ chunk) file_size'

/-- `VoiceNoteService.store_file` (`app/services/voice_note.py`), abstracted
over the sequence of chunks the upload stream yields. -/
def store_file (maxMB : Nat) (chunks : List (List Nat)) : StoreResult :=
  storeLoop maxMB chunks [] 0

/-! ### C6: size cap enforcement in `store_file` -/

theorem storeLoop_under_cap (maxMB : Nat) (chunks : List (List Nat)) :
    ∀ (written : List Nat) (fs : Nat), (∀ c ∈ chunks, c ≠ []) →
      fs + (chunks.map List.length).sum ≤ maxMB * 1024 * 1024 →
      storeLoop maxMB chunks written fs =
        { file := some (written ++ chunks.flatten),
          outcome := .ok (fs + (chunks.map List.length).sum) } := by
  induction chunks with
  | nil => intro written fs _ _; simp [storeLoop]
  | cons c rest ih =>
    intro written fs hne hle
    have hc : c.isEmpty = false := by
      have := hne c (List.mem_cons_self c rest)
      simpa [List.isEmpty_iff] using this
    have hsum : fs + (c.length + ((rest.map List.length).sum)) ≤ maxMB * 1024 * 1024 := by
      simpa [List.map_cons, List.sum_cons] using hle
    have hnc : ¬ fs + c.length > maxMB * 1024 * 1024 := by omega
    rw [storeLoop]
    rw [hc]
    simp only [Bool.false_eq_true, if_false, if_neg hnc]
    rw [ih (written ++ c) (fs + c.length) (fun x hx => hne x (List.mem_cons_of_mem c hx))
      (by omega)]
    simp [List.append_assoc]
    omega

theorem storeLoop_over_cap (maxMB : Nat) (chunks : List (List Nat)) :
    ∀ (written : List Nat) (fs : Nat), (∀ c ∈ chunks, c ≠ []) →
      fs ≤ maxMB * 1024 * 1024 →
      fs + (chunks.map List.length).sum > maxMB * 1024 * 1024 →
      (storeLoop maxMB chunks written fs).file = none ∧
      ∃ msg, (storeLoop maxMB chunks written fs).outcome = .error msg := by
  induction chunks with
  | nil => intro written fs _ hfs hgt; simp at hgt; omega
  | cons c rest ih =>
    intro written fs hne hfs hgt
    have hc : c.isEmpty = false := by
      have := hne c (List.mem_cons_self c rest)
      simpa [List.isEmpty_iff] using this
    rw [storeLoop, hc]
    simp only [Bool.false_eq_true, if_false]
    by_cases hover : fs + c.length > maxMB * 1024 * 1024
    · rw [if_pos hover]
      exact ⟨rfl, _, rfl⟩
    · rw [if_neg hover]
      refine ih (written ++ c) (fs + c.length)
        (fun x hx => hne x (List.mem_cons_of_mem c hx)) (by omega) ?_
      have : (List.map List.length (c :: rest)).sum =
          c.length + (rest.map List.length).sum := by simp
      omega

/-- C6: for a stream whose reads are the given non-empty chunks (an empty
read only ever signals end of stream), `store_file` raises the "too large"
`ValueError` and removes the partial file exactly when the cumulative byte
count exceeds `MAX_UPLOAD_SIZE_MB * 1024 * 1024`; when the stream fits under
the cap it succeeds, the stored bytes are the whole stream, and the returned
size is the total input length. -/
theorem store_file_cap (maxMB : Nat) (chunks : List (List Nat))
    (hne : ∀ c ∈ chunks, c ≠ []) :
    ((chunks.map List.length).sum ≤ maxMB * 1024 * 1024 →
      store_file maxMB chunks =
        { file := some chunks.flatten,
          outcome := .ok (chunks.map List.length).sum }) ∧
    ((chunks.map List.length).sum > maxMB * 1024 * 1024 →
      (store_file maxMB chunks).file = none ∧
      ∃ msg, (store_file maxMB chunks).outcome = .error msg) := by
  constructor
  · intro hle
    have h := storeLoop_under_cap maxMB chunks [] 0 hne (by omega)
    simpa [store_file] using h
  · intro hgt
    have h := storeLoop_over_cap maxMB chunks [] 0 hne (by omega) (by omega)
    simpa [store_file] using h

/-- Witness for `store_file_cap`: a 3-byte stream fits under a 1MB cap and is
stored in full; the same stream overflows a 0MB cap and is removed. -/
theorem store_file_cap_witness :
    store_file 1 [[7, 8], [9]] =
      { file := some [7, 8, 9], outcome := .ok 3 } ∧
    (store_file 0 [[7, 8], [9]]).file = none ∧
    ∃ msg, (store_file 0 [[7, 8], [9]]).outcome = .error msg :=
  ⟨(store_file_cap 1 [[7, 8], [9]] (by decide)).1 (by decide),
   (store_file_cap 0 [[7, 8], [9]] (by decide)).2 (by decide)⟩

/-! ### C10: extension check alone decides when content type is missing -/

/-- C10: with `content_type = None` the MIME check is skipped entirely:
`validate_upload_metadata` accepts exactly when the lowercased extension is
in the allow-list, so the extension check alone decides acceptance. -/
theorem validate_upload_metadata_no_content_type (filename : String) :
    validate_upload_metadata filename none = none ↔
      ALLOWED_EXTENSIONS.contains (pyLower (pathSuffix filename)) = true := by
  unfold validate_upload_metadata
  by_cases h : ALLOWED_EXTENSIONS.contains (pyLower (pathSuffix filename)) = true
  · simp [h]
  · simp only [Bool.not_eq_true] at h
    simp [h]

/-! ### Transcription data model (`app/models`, `app/services/transcription.py`) -/

/-- Row of the `voice_note` table (`app/models/voice_note.py`). -/
structure VoiceNote where
  id : Nat
  user_id : Nat
  original_filename : String
  stored_filename : String
  file_size_bytes : Nat
  mime_type : Option String
  duration_seconds : Option ℚ
  status : String
deriving Repr, DecidableEq

/-- A segment yielded by `model.transcribe` (faster-whisper): a start time,
an end time (attribute `end` in Python) and a text. -/
structure WhisperSegment where
  start : ℚ
  «end» : ℚ
  text : String
deriving Repr, DecidableEq

/-- The `info` object returned by `model.transcribe`: detected language and
reported duration (either may be missing or falsy). -/
structure TranscriptionInfo where
  language : Option String
  duration : Option ℚ
deriving Repr, DecidableEq

/-- Row of the `transcript` table (`app/models/transcript.py`). -/
structure Transcript where
  id : Nat
  voice_note_id : Nat
  user_id : Nat
  full_text : String
  language : Option String
  model_size : String
  processing_time_seconds : ℚ
deriving Repr, DecidableEq

/-- Row of the `transcript_segment` table (`app/models/transcript.py`). -/
structure TranscriptSegment where
  transcript_id : Nat
  segment_index : Nat
  start_time : ℚ
  end_time : ℚ
  text : String
deriving Repr, DecidableEq

/-- The database state the transcription flow touches. -/
structure TxState where
  notes : List VoiceNote
  transcripts : List Transcript
  segments : List TranscriptSegment
  next_transcript_id : Nat
deriving Repr, DecidableEq

/-- Mutate-then-commit on a voice-note row, as an id-keyed update. -/
def updateNote (notes : List VoiceNote) (nid : Nat) (f : VoiceNote → VoiceNote) :
    List VoiceNote :=
  notes.map (fun n => if n.id == nid then f n else n)

/-- The segment rows created by `for idx, seg in enumerate(segments_list)`:
`segment_index` is the position in the produced order, text trimmed. -/
def mkSegmentRows (transcript_id : Nat) (segs : List WhisperSegment) :
    List TranscriptSegment :=
  segs.enum.map (fun p =>
    { transcript_id := transcript_id, segment_index := p.1,
      start_time := p.2.start, end_time := p.2.«end», text := pyStrip p.2.text })

/-- `TranscriptionService.transcribe` (`app/services/transcription.py`).
The whisper model run is abstracted as `modelResult`: either the ordered
segment list plus info, or the exception message; `model_size` and
`processing_time` stand for `settings.WHISPER_MODEL_SIZE` and the measured
wall time.  The status update to "transcribing" is committed before the
model runs; transcript and segment rows are only added on the success path,
in the same commit that marks the note "completed"; on failure the note is
marked "failed" and a wrapped error is raised. -/
def transcribe (st : TxState) (note : VoiceNote)
    (modelResult : Except String (List WhisperSegment × Option TranscriptionInfo))
    (model_size : String) (processing_time : ℚ) :
    TxState × Except String Transcript :=
  let st1 := { st with
    notes := updateNote st.notes note.id (fun n => { n with status := "transcribing" }) }
  match modelResult with
  | .error e =>
    ({ st1 with
       notes := updateNote st1.notes note.id (fun n => { n with status := "failed" }) },
     .error ("Transcription failed: " ++ e))
  | .ok (segments_list, info) =>
    let full_text := String.intercalate (" ") (segments_list.map (fun seg => pyStrip seg.text))
    let transcript : Transcript :=
      { id := st1.next_transcript_id
        voice_note_id := note.id
        user_id := note.user_id
        full_text := full_text
        language := (match info with | some i => i.language | none => none)
        model_size := model_size
        processing_time_seconds := processing_time }
    let notes2 := updateNote st1.notes note.id (fun n =>
      let n1 := { n with status := "completed" }
      match info with
      | none => n1
      | some i =>
        match i.duration with
        | none => n1
        | some d => if d ≠ 0 then { n1 with duration_seconds := some d } else n1)
    ({ st1 with
       notes := notes2
       transcripts := st1.transcripts ++ [transcript]
       segments := st1.segments ++ mkSegmentRows transcript.id segments_list
       next_transcript_id := st1.next_transcript_id + 1 },
     .ok transcript)

/-- FastAPI `HTTPException`. -/
structure HTTPException where
  status_code : Nat
  detail : String
deriving Repr, DecidableEq

/-- The `POST /api/v1/voice-notes/{note_id}/transcribe` handler
(`app/routers/voice_notes.py`, `transcribe_voice_note`): 404 when the note is
absent or not owned, a 400 status-conflict error when the status is neither
"uploaded" nor "failed" (checked before the transcription service is
invoked), otherwise the service call; an uncaught service error surfaces as
a 5xx failure. -/
def transcribe_voice_note (st : TxState) (note_id user_id : Nat)
    (modelResult : Except String (List WhisperSegment × Option TranscriptionInfo))
    (model_size : String) (processing_time : ℚ) :
    TxState × Except HTTPException (String × Nat) :=
  match st.notes.find? (fun n => n.id == note_id && n.user_id == user_id) with
  | none => (st, .error { status_code := 404, detail := "Voice note not found" })
  | some note =>
    if note.status != "uploaded" && note.status != "failed" then
      (st, .error { status_code := 400,
                    detail := "Cannot transcribe note with status '" ++
                      note.status ++ "'" })
    else
      match transcribe st note modelResult model_size processing_time with
      | (st', .error e) => (st', .error { status_code := 500, detail := e })
      | (st', .ok t) => (st', .ok ("Transcription complete", t.id))

/-- Ordering of segment rows by `segment_index` (the SQL
`ORDER BY segment_index`). -/
def segLE (a b : TranscriptSegment) : Prop :=
  a.segment_index ≤ b.segment_index

instance : DecidableRel segLE := fun a b => Nat.decLe a.segment_index b.segment_index

instance : IsTotal TranscriptSegment segLE :=
  ⟨fun a b => Nat.le_total a.segment_index b.segment_index⟩

instance : IsTrans TranscriptSegment segLE :=
  ⟨fun _ _ _ hab hbc => Nat.le_trans hab hbc⟩

/-- `TranscriptService.get_transcript_with_segments`
(`app/services/transcript.py`): the transcript scoped by owner, joined with
its voice note for the display filename, and its segments ordered by
`segment_index` ascending. -/
def get_transcript_with_segments (st : TxState) (transcript_id user_id : Nat) :
    Option (Transcript × String × List TranscriptSegment) :=
  match st.transcripts.find? (fun t => t.id == transcript_id && t.user_id == user_id) with
  | none => none
  | some t =>
    match st.notes.find? (fun n => n.id == t.voice_note_id) with
    | none => none
    | some n =>
      some (t, n.original_filename,
        List.insertionSort segLE
          (st.segments.filter (fun s => s.transcript_id == transcript_id)))

/-! ### C2: failed transcription commits nothing and marks the note failed -/

/-- C2: when the model run fails, `transcribe` raises the wrapped error
"Transcription failed: ...", commits no transcript row and no segment rows,
and every note with the voice note's id ends with status "failed". -/
theorem transcribe_failure_atomic (st : TxState) (note : VoiceNote) (e : String)
    (model_size : String) (processing_time : ℚ) :
    (transcribe st note (.error e) model_size processing_time).2 =
      .error ("Transcription failed: " ++ e) ∧
    (transcribe st note (.error e) model_size processing_time).1.transcripts =
      st.transcripts ∧
    (transcribe st note (.error e) model_size processing_time).1.segments =
      st.segments ∧
    ∀ n ∈ (transcribe st note (.error e) model_size processing_time).1.notes,
      n.id = note.id → n.status = "failed" := by
  refine ⟨rfl, rfl, rfl, ?_⟩
  intro n hn hid
  rw [transcribe] at hn
  simp only [updateNote, List.mem_map] at hn
  obtain ⟨m, ⟨w, hw, hweq⟩, hmeq⟩ := hn
  by_cases h : m.id = note.id
  · rw [← hmeq, if_pos (by simpa using h)]
  · rw [← hmeq, if_neg (by simpa using h)] at hid
    exact absurd hid h

/-- Voice note and state used in the C2 witness. -/
def wNote : VoiceNote :=
  { id := 1, user_id := 1, original_filename := "a.mp3", stored_filename := "u.mp3",
    file_size_bytes := 3, mime_type := some ("audio/mpeg"), duration_seconds := none,
    status := "uploaded" }

def wSt : TxState :=
  { notes := [wNote], transcripts := [], segments := [], next_transcript_id := 1 }

/-- Witness for `transcribe_failure_atomic` at a concrete failing run. -/
theorem transcribe_failure_atomic_witness :
    (transcribe wSt wNote (.error ("boom")) ("base") 1).2 =
      .error ("Transcription failed: boom") ∧
    ({ wNote with status := "failed" } : VoiceNote).status = "failed" :=
  ⟨(transcribe_failure_atomic wSt wNote ("boom") ("base") 1).1,
   (transcribe_failure_atomic wSt wNote ("boom") ("base") 1).2.2.2
     { wNote with status := "failed" } (by decide) rfl⟩

/-! ### C4: status-conflict guard in the transcribe endpoint -/

/-- C4: for a note found with status "transcribing" or "completed", the
request is rejected with the 400 status-conflict error and the state is
returned unchanged — no second transcript is created and the transcription
service is never invoked. -/
theorem transcribe_status_conflict (st : TxState) (note_id user_id : Nat)
    (modelResult : Except String (List WhisperSegment × Option TranscriptionInfo))
    (model_size : String) (processing_time : ℚ) (note : VoiceNote)
    (hfind : st.notes.find? (fun n => n.id == note_id && n.user_id == user_id) =
      some note)
    (hstatus : note.status = "transcribing" ∨ note.status = "completed") :
    transcribe_voice_note st note_id user_id modelResult model_size processing_time =
      (st, .error { status_code := 400,
                    detail := "Cannot transcribe note with status '" ++
                      note.status ++ "'" }) := by
  have hguard : (note.status != "uploaded" && note.status != "failed") = true := by
    rcases hstatus with h | h <;> rw [h] <;> decide
  simp [transcribe_voice_note, hfind, hguard]

/-- Completed note and state used in the C4 witness. -/
def c4Note : VoiceNote :=
  { id := 2, user_id := 1, original_filename := "b.mp3", stored_filename := "v.mp3",
    file_size_bytes := 3, mime_type := some ("audio/mpeg"), duration_seconds := some 4,
    status := "completed" }

def c4St : TxState :=
  { notes := [c4Note],
    transcripts := [{ id := 1, voice_note_id := 2, user_id := 1, full_text := "x",
                      language := none, model_size := "base",
                      processing_time_seconds := 1 }],
    segments := [], next_transcript_id := 2 }

/-- Witness for `transcribe_status_conflict` on a completed note. -/
theorem transcribe_status_conflict_witness :
    transcribe_voice_note c4St 2 1 (.ok ([], none)) ("base") 1 =
      (c4St, .error { status_code := 400,
                      detail := "Cannot transcribe note with status 'completed'" }) := by
  have h := transcribe_status_conflict c4St 2 1 (.ok ([], none)) ("base") 1 c4Note
    (by decide) (Or.inr rfl)
  rw [h]
  decide

/-! ### C5: successful transcription persists joined text and ordered segments -/

theorem mkSegmentRows_index (tid : Nat) (segs : List WhisperSegment) :
    ∀ (i : Nat) (hi : i < (mkSegmentRows tid segs).length),
      ((mkSegmentRows tid segs).get ⟨i, hi⟩).segment_index = i := by
  intro i hi
  rw [List.get_eq_getElem]
  simp [mkSegmentRows]

theorem get_transcript_segments_sorted (st : TxState) (tid uid : Nat)
    (t : Transcript) (fn : String) (ss : List TranscriptSegment)
    (h : get_transcript_with_segments st tid uid = some (t, fn, ss)) :
    List.Sorted segLE ss := by
  unfold get_transcript_with_segments at h
  cases h1 : st.transcripts.find? (fun x => x.id == tid && x.user_id == uid) with
  | none => rw [h1] at h; exact Option.noConfusion h
  | some t' =>
    rw [h1] at h
    dsimp only at h
    cases h2 : st.notes.find? (fun n => n.id == t'.voice_note_id) with
    | none => rw [h2] at h; exact Option.noConfusion h
    | some n =>
      rw [h2] at h
      have h3 := Option.some.inj h
      have hss : List.insertionSort segLE
          (st.segments.filter (fun s => s.transcript_id == tid)) = ss :=
        congrArg (fun p => p.2.2) h3
      rw [← hss]
      exact List.sorted_insertionSort segLE _

/-- C5: a successful transcription returns and persists a transcript whose
`full_text` is the space-joined concatenation of the trimmed segment texts in
produced order, appends exactly the segment rows whose `segment_index` is
the position in that order, and `get_transcript_with_segments` returns
segments ordered by `segment_index` ascending. -/
theorem transcribe_success_persists (st : TxState) (note : VoiceNote)
    (segs : List WhisperSegment) (info : Option TranscriptionInfo)
    (model_size : String) (processing_time : ℚ) :
    (transcribe st note (.ok (segs, info)) model_size processing_time).2 =
      .ok { id := st.next_transcript_id, voice_note_id := note.id,
            user_id := note.user_id,
            full_text := String.intercalate (" ") (segs.map (fun s => pyStrip s.text)),
            language := (match info with | some i => i.language | none => none),
            model_size := model_size, processing_time_seconds := processing_time } ∧
    (transcribe st note (.ok (segs, info)) model_size processing_time).1.transcripts =
      st.transcripts ++
        [{ id := st.next_transcript_id, voice_note_id := note.id,
           user_id := note.user_id,
           full_text := String.intercalate (" ") (segs.map (fun s => pyStrip s.text)),
           language := (match info with | some i => i.language | none => none),
           model_size := model_size, processing_time_seconds := processing_time }] ∧
    (transcribe st note (.ok (segs, info)) model_size processing_time).1.segments =
      st.segments ++ mkSegmentRows st.next_transcript_id segs ∧
    (∀ (i : Nat) (hi : i < (mkSegmentRows st.next_transcript_id segs).length),
      ((mkSegmentRows st.next_transcript_id segs).get ⟨i, hi⟩).segment_index = i) ∧
    (∀ (st2 : TxState) (tid uid : Nat) (t : Transcript) (fn : String)
        (ss : List TranscriptSegment),
      get_transcript_with_segments st2 tid uid = some (t, fn, ss) →
      List.Sorted segLE ss) :=
  ⟨rfl, rfl, rfl, mkSegmentRows_index st.next_transcript_id segs,
   fun st2 tid uid t fn ss h => get_transcript_segments_sorted st2 tid uid t fn ss h⟩

/-- Whisper output and state used in the C5 witness. -/
def c5Segs : List WhisperSegment :=
  [{ start := 0, «end» := 2, text := " Hello world " },
   { start := 2, «end» := 4, text := "This is a test" }]

def c5Note : VoiceNote :=
  { id := 1, user_id := 1, original_filename := "c.mp3", stored_filename := "w.mp3",
    file_size_bytes := 3, mime_type := some ("audio/mpeg"), duration_seconds := none,
    status := "uploaded" }

def c5St : TxState :=
  { notes := [c5Note], transcripts := [], segments := [], next_transcript_id := 1 }

def c5St2 : TxState :=
  (transcribe c5St c5Note
    (.ok (c5Segs, some { language := some ("en"), duration := some 4 }))
    ("base") 1).1

/-- Witness for `transcribe_success_persists` on a two-segment run. -/
theorem transcribe_success_persists_witness :
    (transcribe c5St c5Note
        (.ok (c5Segs, some { language := some ("en"), duration := some 4 }))
        ("base") 1).2 =
      .ok { id := 1, voice_note_id := 1, user_id := 1,
            full_text := "Hello world This is a test", language := some ("en"),
            model_size := "base", processing_time_seconds := 1 } ∧
    ((mkSegmentRows 1 c5Segs).get ⟨1, by decide⟩).segment_index = 1 ∧
    List.Sorted segLE
      [{ transcript_id := 1, segment_index := 0, start_time := 0, end_time := 2,
         text := "Hello world" },
       { transcript_id := 1, segment_index := 1, start_time := 2, end_time := 4,
         text := "This is a test" }] := by
  refine ⟨?_, ?_, ?_⟩
  · have h := (transcribe_success_persists c5St c5Note c5Segs
      (some { language := some ("en"), duration := some 4 }) ("base") 1).1
    rw [h]
    decide
  · exact (transcribe_success_persists c5St c5Note c5Segs
      (some { language := some ("en"), duration := some 4 }) ("base") 1).2.2.2.1 1
      (by decide)
  · exact (transcribe_success_persists c5St c5Note c5Segs
      (some { language := some ("en"), duration := some 4 }) ("base") 1).2.2.2.2 c5St2 1 1
      { id := 1, voice_note_id := 1, user_id := 1,
        full_text := "Hello world This is a test", language := some ("en"),
        model_size := "base", processing_time_seconds := 1 }
      ("c.mp3")
      [{ transcript_id := 1, segment_index := 0, start_time := 0, end_time := 2,
         text := "Hello world" },
       { transcript_id := 1, segment_index := 1, start_time := 2, end_time := 4,
         text := "This is a test" }]
      (by decide)

/-! ### Transcript download rendering (`app/services/transcript.py`) -/

/-- Python float floor-division `a // b` over the rationals. -/
def pyFloorDivQ (a b : ℚ) : ℚ :=
  ((Int.floor (a / b) : ℤ) : ℚ)

/-- Python float modulo `a % b` over the rationals (result has the sign of
`b`). -/
def pyModQ (a b : ℚ) : ℚ :=
  a - b * ((Int.floor (a / b) : ℤ) : ℚ)

/-- Python `int(x)`: truncation toward zero. -/
def pyIntQ (a : ℚ) : ℤ :=
  if 0 ≤ a then Int.floor a else Int.ceil a

/-- Python format `f"{n:02d}"`: zero-pad to width two. -/
def pad2 (n : ℤ) : String :=
  if 0 ≤ n ∧ n < 10 then "0" ++ toString n else toString n

/-- The dict handed to `generate_download_text` by
`get_transcript_with_segments` (`created_at` rendered as text). -/
structure TranscriptData where
  original_filename : String
  language : Option String
  model_size : String
  created_at : String
  segments : List TranscriptSegment
  full_text : String
deriving Repr, DecidableEq

/-- One `[MM:SS] text` line of the download:
`start_min = int(seg.start_time // 60)`, `start_sec = int(seg.start_time % 60)`. -/
def renderSegmentLine (seg : TranscriptSegment) : String :=
  "[" ++ pad2 (pyIntQ (pyFloorDivQ seg.start_time 60)) ++ ":" ++
    pad2 (pyIntQ (pyModQ seg.start_time 60)) ++ "] " ++ seg.text

/-- The header block of the download text.  The `language` value is always
present in the dict built by `get_transcript_with_segments`, so the
`dict.get` default is never taken and a missing language renders as Python
`None`. -/
def headerLines (d : TranscriptData) : List String :=
  ["Transcript: " ++ d.original_filename,
   "Language: " ++ (match d.language with | some s => s | none => "None"),
   "Model: " ++ d.model_size,
   "Date: " ++ d.created_at,
   "",
   String.mk (List.replicate 60 '='),
   ""]

/-- The footer block of the download text. -/
def footerLines (d : TranscriptData) : List String :=
  ["", String.mk (List.replicate 60 '='), "", "Full Text:", d.full_text]

/-- The `lines` list assembled by `TranscriptService.generate_download_text`. -/
def downloadLines (d : TranscriptData) : List String :=
  headerLines d ++ d.segments.map renderSegmentLine ++ footerLines d

/-- `TranscriptService.generate_download_text`: `"\n".join(lines)`. -/
def generate_download_text (d : TranscriptData) : String :=
  String.intercalate ("\n") (downloadLines d)

/-- The claim's wording of the timestamp: `MM = floor(start_time / 60)` and
`SS = floor(start_time mod 60)`, both zero-padded to two digits. -/
def specSegmentLine (seg : TranscriptSegment) : String :=
  "[" ++ pad2 (Int.floor (seg.start_time / 60)) ++ ":" ++
    pad2 (Int.floor (pyModQ seg.start_time 60)) ++ "] " ++ seg.text

/-! ### C8: one `[MM:SS] text` line per segment -/

theorem pyIntQ_intCast (n : ℤ) : pyIntQ ((n : ℤ) : ℚ) = n := by
  by_cases h : (0 : ℚ) ≤ (n : ℚ)
  · simp [pyIntQ, h, Int.floor_intCast]
  · simp [pyIntQ, h, Int.ceil_intCast]

theorem pyModQ_nonneg (a : ℚ) : 0 ≤ pyModQ a 60 := by
  unfold pyModQ
  have h1 : ((Int.floor (a / 60) : ℤ) : ℚ) ≤ a / 60 := Int.floor_le _
  have h2 : (60 : ℚ) * ((Int.floor (a / 60) : ℤ) : ℚ) ≤ 60 * (a / 60) :=
    mul_le_mul_of_nonneg_left h1 (by norm_num)
  have h3 : (60 : ℚ) * (a / 60) = a := by field_simp
  linarith

/-- C8: the download text has exactly the segment lines (one per segment, in
order) between its header and footer, every rendered line agrees with the
claim's `floor`-based `[MM:SS]` formula, and `start_time = 65` renders as
`[01:05]`. -/
theorem download_segment_lines (d : TranscriptData) :
    downloadLines d =
      headerLines d ++ d.segments.map renderSegmentLine ++ footerLines d ∧
    (∀ seg : TranscriptSegment, renderSegmentLine seg = specSegmentLine seg) ∧
    renderSegmentLine { transcript_id := 1, segment_index := 0, start_time := 65,
                        end_time := 70, text := "hi" } = "[01:05] hi" := by
  refine ⟨rfl, fun seg => ?_, ?_⟩
  · unfold renderSegmentLine specSegmentLine
    have hmin : pyIntQ (pyFloorDivQ seg.start_time 60) = Int.floor (seg.start_time / 60) :=
      pyIntQ_intCast _
    have hsec : pyIntQ (pyModQ seg.start_time 60) = Int.floor (pyModQ seg.start_time 60) := by
      unfold pyIntQ
      rw [if_pos (pyModQ_nonneg seg.start_time)]
    rw [hmin, hsec]
  · have hl : Int.floor ((65 : ℚ) / 60) = 1 := by norm_num
    have h1 : pyIntQ (pyFloorDivQ (65 : ℚ) 60) = 1 := by
      unfold pyFloorDivQ
      rw [hl, pyIntQ_intCast]
    have hm : pyModQ (65 : ℚ) 60 = ((5 : ℤ) : ℚ) := by
      unfold pyModQ
      rw [hl]
      norm_num
    have h2 : pyIntQ (pyModQ (65 : ℚ) 60) = 5 := by
      rw [hm, pyIntQ_intCast]
    show "[" ++ pad2 (pyIntQ (pyFloorDivQ 65 60)) ++ ":" ++
      pad2 (pyIntQ (pyModQ 65 60)) ++ "] " ++ "hi" = "[01:05] hi"
    rw [h1, h2]
    decide

/-! ### JWT service (`app/services/jwt.py`) -/

/-- A decoded JWT payload as built by `create_token`: subject, email, display
name, expiry (Unix seconds). -/
structure JWTPayload where
  sub : String
  email : String
  displayName : String
  exp : Int
deriving Repr, DecidableEq

/-- Idealised model of a `jose.jwt` token: `jwt.encode` packages the payload
with the signing key and algorithm; nothing else about the wire format is
relevant to the service code. -/
structure JoseToken where
  payload : JWTPayload
  key : String
  alg : String
deriving Repr, DecidableEq

/-- Model of `jose.jwt.decode(token, key, algorithms)` at time `now`: the
payload is returned when the key matches, the algorithm is accepted and the
`exp` claim lies in the future; any verification failure yields `JWTError`,
i.e. `none`. -/
def joseDecode (tok : JoseToken) (key : String) (algs : List String) (now : Int) :
    Option JWTPayload :=
  if tok.key == key && algs.contains tok.alg && decide (now < tok.payload.exp) then
    some tok.payload
  else
    none

/-- `JWTService` configuration fields. -/
structure JWTService where
  secret_key : String
  algorithm : String
  expire_minutes : Int
deriving Repr, DecidableEq

/-- `JWTService.create_token`: payload with `sub = str(user_id)`, `email`,
`displayName` and `exp = now + expire_minutes` minutes, signed with the
service's secret and algorithm. -/
def create_token (svc : JWTService) (now : Int) (user_id : Nat)
    (email display_name : String) : JoseToken :=
  { payload := { sub := toString user_id, email := email,
                 displayName := display_name, exp := now + svc.expire_minutes * 60 },
    key := svc.secret_key, alg := svc.algorithm }

/-- `JWTService.decode_token`: decode with the service's secret and its
single accepted algorithm, `none` on any `JWTError`. -/
def decode_token (svc : JWTService) (now : Int) (tok : JoseToken) :
    Option JWTPayload :=
  joseDecode tok svc.secret_key [svc.algorithm] now

/-! ### C9: token round trip -/

/-- C9: decoding a freshly created token with the same service (same secret
and algorithm) before the expiry elapses succeeds, and the payload carries
`sub = toString user_id`, the email and the display name. -/
theorem decode_create_token_roundtrip (svc : JWTService) (issued now : Int)
    (user_id : Nat) (email display_name : String)
    (h : now < issued + svc.expire_minutes * 60) :
    decode_token svc now (create_token svc issued user_id email display_name) =
      some { sub := toString user_id, email := email, displayName := display_name,
             exp := issued + svc.expire_minutes * 60 } := by
  simp [decode_token, create_token, joseDecode, h]

/-- Concrete service configuration for the C9 witness (default 480-minute
expiry). -/
def w9Svc : JWTService :=
  { secret_key := "s", algorithm := "HS256", expire_minutes := 480 }

/-- Witness for `decode_create_token_roundtrip`. -/
theorem decode_create_token_roundtrip_witness :
    decode_token w9Svc 100 (create_token w9Svc 0 7 ("u@x.com") ("U")) =
      some { sub := "7", email := "u@x.com", displayName := "U", exp := 28800 } := by
  have h := decode_create_token_roundtrip w9Svc 0 100 7 ("u@x.com") ("U") (by decide)
  rw [h]
  decide

end SageWhisper
